import Mathlib

/-!
Verification of the magazine-subscription backend
(`research_assignment/main.py`, `schemas.py`, `models.py`).

The entity store is embedded as lists of records together with
auto-increment counters (SQL integer primary keys).  Each HTTP route
handler becomes a pure function from the store and the parsed request
body to the (possibly updated) store paired with either an
`HTTPException` or a success response, mirroring the handler code
line by line.  The password/token helpers live in `auth.py`, which is
not part of the sources; they are modelled from the spec and marked as
such.
-/

namespace MagSub

/-- Embeds `models.User`: id, unique username, unique email, hashed password. -/
structure User where
  id : Nat
  username : String
  email : String
  hashed_password : String
deriving Repr, DecidableEq

/-- Embeds `models.Magazine`: id, title, description. -/
structure Magazine where
  id : Nat
  title : String
  description : String
deriving Repr, DecidableEq

/-- Embeds `models.Plan`: id, magazine_id, name, price, discount.
The request schema (`PlanCreate`) types price and discount as `int`;
we keep them as integers, which also lets negative values be expressed. -/
structure Plan where
  id : Nat
  magazine_id : Nat
  name : String
  price : Int
  discount : Int
deriving Repr, DecidableEq

/-- Embeds `models.Subscription`: id, user_id, plan_id, active flag. -/
structure Subscription where
  id : Nat
  user_id : Nat
  plan_id : Nat
  active : Bool
deriving Repr, DecidableEq

/-- The relational store: one list per table plus the next value of each
table auto-increment primary key. -/
structure DB where
  users : List User
  magazines : List Magazine
  plans : List Plan
  subscriptions : List Subscription
  nextUserId : Nat
  nextMagazineId : Nat
  nextPlanId : Nat
  nextSubscriptionId : Nat
deriving Repr, DecidableEq

/-- Embeds `fastapi.HTTPException`: a status code and a detail message. -/
structure HTTPException where
  status_code : Nat
  detail : String
deriving Repr, DecidableEq

/-- Embeds `schemas.UserCreate`. -/
structure UserCreate where
  username : String
  email : String
  password : String
deriving Repr, DecidableEq

/-- Embeds `schemas.UserLogin`. -/
structure UserLogin where
  username : String
  password : String
deriving Repr, DecidableEq

/-- Embeds `schemas.SubscriptionCreate`; `active` defaults to `True`. -/
structure SubscriptionCreate where
  user_id : Nat
  plan_id : Nat
  active : Bool := true
deriving Repr, DecidableEq

/-- Embeds `schemas.PlanCreate`; `discount` defaults to `0`. -/
structure PlanCreate where
  magazine_id : Nat
  name : String
  price : Int
  discount : Int := 0
deriving Repr, DecidableEq

/-- Embeds `schemas.MagazineCreate`. -/
structure MagazineCreate where
  title : String
  description : String
deriving Repr, DecidableEq

/-- Embeds `schemas.SubscriptionUpdate`: both fields default to `None`, i.e. a
field absent from the JSON body arrives as `None`, exactly like a field
explicitly set to `null`. -/
structure SubscriptionUpdate where
  plan_id : Option Nat := none
  active : Option Bool := none
deriving Repr, DecidableEq

/-- The `/register` success body: `{"username": ..., "email": ...}`. -/
structure RegisterResponse where
  username : String
  email : String
deriving Repr, DecidableEq

/-- The `/login` success body: `{"access_token": ..., "token_type": "bearer"}`. -/
structure LoginResponse where
  access_token : String
  token_type : String
deriving Repr, DecidableEq

/-- Modelled from the spec: `auth.get_password_hash` (the file `auth.py`
is not among the sources).  The spec says passwords are stored as a
salted one-way hash, never as the plaintext; we model the hash as a
tagged transformation of the password, which is never equal to the
plaintext itself. -/
def get_password_hash (password : String) : String :=
  "bcrypt-sha$" ++ password

/-- Modelled from the spec: `auth.verify_password` (missing `auth.py`).
Verification succeeds exactly when the supplied plaintext hashes to the
stored value. -/
def verify_password (plain hashed : String) : Bool :=
  get_password_hash plain == hashed

/-- Modelled from the spec: `auth.create_access_token` (missing
`auth.py`).  The spec says the token opaquely encodes the username
(`{"sub": username}`). -/
def create_access_token (sub : String) : String :=
  "token$" ++ sub

/-- Handler for `POST /register` (`main.register`): conflict if the username is
taken, else insert a user whose stored password is the hash. -/
def register (db : DB) (user : UserCreate) :
    DB × Except HTTPException RegisterResponse :=
  match db.users.find? (fun u => u.username == user.username) with
  | some _ =>
      (db, .error ⟨400, "Username already registered"⟩)
  | none =>
      let hashed_password := get_password_hash user.password
      let new_user : User :=
        ⟨db.nextUserId, user.username, user.email, hashed_password⟩
      ({ db with
          users := db.users ++ [new_user],
          nextUserId := db.nextUserId + 1 },
       .ok ⟨new_user.username, new_user.email⟩)

/-- Handler for `POST /login` (`main.login`): the same 401 response whether the
user is missing or the password fails to verify. -/
def login (db : DB) (user : UserLogin) : Except HTTPException LoginResponse :=
  match db.users.find? (fun u => u.username == user.username) with
  | none => .error ⟨401, "Incorrect username or password"⟩
  | some db_user =>
      if verify_password user.password db_user.hashed_password then
        .ok ⟨create_access_token db_user.username, "bearer"⟩
      else
        .error ⟨401, "Incorrect username or password"⟩

/-- Handler for `POST /subscriptions/` (`main.create_subscription`): 404 if the user
or the plan is missing, else insert the new row (`Subscription(**subscription.dict())`
with the next primary key) and return it. -/
def create_subscription (db : DB) (subscription : SubscriptionCreate) :
    DB × Except HTTPException Subscription :=
  match db.users.find? (fun u => u.id == subscription.user_id) with
  | none => (db, .error ⟨404, "User not found"⟩)
  | some _ =>
    match db.plans.find? (fun p => p.id == subscription.plan_id) with
    | none => (db, .error ⟨404, "Plan not found"⟩)
    | some _ =>
        let db_subscription : Subscription :=
          ⟨db.nextSubscriptionId, subscription.user_id, subscription.plan_id,
           subscription.active⟩
        ({ db with
            subscriptions := db.subscriptions ++ [db_subscription],
            nextSubscriptionId := db.nextSubscriptionId + 1 },
         .ok db_subscription)

/-- Handler for `POST /plans/` (`main.create_plan`): 404 if the magazine is missing,
else insert the new plan (no validation of price or discount). -/
def create_plan (db : DB) (plan : PlanCreate) :
    DB × Except HTTPException Plan :=
  match db.magazines.find? (fun m => m.id == plan.magazine_id) with
  | none => (db, .error ⟨404, "Magazine not found"⟩)
  | some _ =>
      let db_plan : Plan :=
        ⟨db.nextPlanId, plan.magazine_id, plan.name, plan.price, plan.discount⟩
      ({ db with
          plans := db.plans ++ [db_plan],
          nextPlanId := db.nextPlanId + 1 },
       .ok db_plan)

/-- Handler for `POST /magazines/` (`main.create_magazine`): 400 if a magazine with
the same title exists, else insert the new magazine. -/
def create_magazine (db : DB) (magazine : MagazineCreate) :
    DB × Except HTTPException Magazine :=
  match db.magazines.find? (fun m => m.title == magazine.title) with
  | some _ =>
      (db, .error ⟨400, "Magazine with this title already exists"⟩)
  | none =>
      let db_magazine : Magazine :=
        ⟨db.nextMagazineId, magazine.title, magazine.description⟩
      ({ db with
          magazines := db.magazines ++ [db_magazine],
          nextMagazineId := db.nextMagazineId + 1 },
       .ok db_magazine)

/-- Handler for `GET /subscriptions/{user_id}` (`main.get_user_subscriptions`):
filter by `user_id`; 404 when the resulting list is empty. -/
def get_user_subscriptions (db : DB) (user_id : Nat) :
    Except HTTPException (List Subscription) :=
  let subscriptions := db.subscriptions.filter (fun s => s.user_id == user_id)
  if subscriptions.isEmpty then
    .error ⟨404, "No subscriptions found for this user"⟩
  else
    .ok subscriptions

/-- Replace the first list element satisfying `p` by `f` of it, leaving
the rest alone — the effect of mutating the row returned by
`query(...).filter(...).first()`. -/
def updateFirst (p : α → Bool) (f : α → α) : List α → List α
  | [] => []
  | x :: xs => if p x then f x :: xs else x :: updateFirst p f xs

/-- Handler for `PUT /subscriptions/{subscription_id}` (`main.update_subscription`):
404 if the row is missing; otherwise each request field that `is not
None` overwrites the stored one, the rest keep their values. -/
def update_subscription (db : DB) (subscription_id : Nat)
    (subscription : SubscriptionUpdate) :
    DB × Except HTTPException Subscription :=
  match db.subscriptions.find? (fun s => s.id == subscription_id) with
  | none => (db, .error ⟨404, "Subscription not found"⟩)
  | some db_subscription =>
      let updated : Subscription :=
        { db_subscription with
            plan_id := subscription.plan_id.getD db_subscription.plan_id,
            active := subscription.active.getD db_subscription.active }
      ({ db with
          subscriptions :=
            updateFirst (fun s => s.id == subscription_id) (fun _ => updated)
              db.subscriptions },
       .ok updated)

/-- Embeds `main.get_current_user`: a placeholder that looks up the user whose
id is the constant 1, independent of any request data. -/
def get_current_user (db : DB) : Option User :=
  db.users.find? (fun u => u.id == 1)

/-- Handler for `DELETE /subscriptions/{subscription_id}` (`main.delete_subscription`)
with the resolved `current_user` passed in (FastAPI injects it via
`Depends(get_current_user)`): 404 if the row is missing, 403 if its
`user_id` differs from the current user id, else delete the row. -/
def delete_subscription (db : DB) (subscription_id : Nat)
    (current_user : User) : DB × Except HTTPException String :=
  match db.subscriptions.find? (fun s => s.id == subscription_id) with
  | none => (db, .error ⟨404, "Subscription not found"⟩)
  | some db_subscription =>
      if db_subscription.user_id != current_user.id then
        (db, .error ⟨403, "You do not have permission to delete this subscription"⟩)
      else
        ({ db with
            subscriptions :=
              db.subscriptions.eraseP (fun s => s.id == subscription_id) },
         .ok "Subscription deleted successfully")

/-! ### Concrete fixtures used by the witness theorems -/

/-- A user with id 1 (the id the placeholder current-user resolution targets). -/
def u1 : User := ⟨1, "alice", "alice@example.com", get_password_hash "pw1"⟩

/-- A second user, id 2. -/
def u2 : User := ⟨2, "bob", "bob@example.com", get_password_hash "pw2"⟩

/-- A magazine with id 1. -/
def m1 : Magazine := ⟨1, "Tech Monthly", "A magazine dedicated to the latest in tech."⟩

/-- A plan with id 1 on magazine 1. -/
def p1 : Plan := ⟨1, 1, "Monthly Subscription", 10, 0⟩

/-- Subscription 1: user 1 on plan 1, active. -/
def s1 : Subscription := ⟨1, 1, 1, true⟩

/-- Subscription 2: user 2 on plan 1, active. -/
def s2 : Subscription := ⟨2, 2, 1, true⟩

/-- A small store holding the fixtures above. -/
def db0 : DB := ⟨[u1, u2], [m1], [p1], [s1, s2], 3, 2, 2, 3⟩

/-! ### Claims -/

/-- C1: `delete_subscription(subscription_id)` fails with 404 when no
subscription with that id exists; fails with 403 and leaves the store
unchanged when the `user_id` of the subscription differs from the resolved
current user id; otherwise deletes the record and returns the success
message. -/
theorem delete_subscription_correct (db : DB) (sid : Nat) (cu : User) :
    (db.subscriptions.find? (fun s => s.id == sid) = none →
      delete_subscription db sid cu = (db, .error ⟨404, "Subscription not found"⟩)) ∧
    (∀ s, db.subscriptions.find? (fun s => s.id == sid) = some s →
      s.user_id ≠ cu.id →
      delete_subscription db sid cu =
        (db, .error ⟨403, "You do not have permission to delete this subscription"⟩)) ∧
    (∀ s, db.subscriptions.find? (fun s => s.id == sid) = some s →
      s.user_id = cu.id →
      delete_subscription db sid cu =
        ({ db with subscriptions := db.subscriptions.eraseP (fun s => s.id == sid) },
         .ok "Subscription deleted successfully")) := by
  refine ⟨fun h => ?_, fun s hs hne => ?_, fun s hs he => ?_⟩
  · simp [delete_subscription, h]
  · simp [delete_subscription, hs, hne]
  · simp [delete_subscription, hs, he]

/-- C1 witness: in the fixture store, deleting subscription 2 as user 1
(who does not own it) yields 403 and leaves the store unchanged. -/
theorem delete_subscription_correct_witness :
    db0.subscriptions.find? (fun s => s.id == 2) = some s2 ∧
    s2.user_id ≠ u1.id ∧
    delete_subscription db0 2 u1 =
      (db0, .error ⟨403, "You do not have permission to delete this subscription"⟩) :=
  ⟨by decide, by decide,
   (delete_subscription_correct db0 2 u1).2.1 s2 (by decide) (by decide)⟩

/-- C10: the current-user resolution is hard-coded to the user with
id 1; whenever such a user exists, `delete_subscription` returns 403 on
every subscription owned by any other user and succeeds exactly on
subscriptions with `user_id = 1`. -/
theorem delete_subscription_hardcoded_identity (db : DB) (u : User)
    (hu : get_current_user db = some u) :
    u.id = 1 ∧
    (∀ sid s, db.subscriptions.find? (fun x => x.id == sid) = some s →
      s.user_id ≠ 1 →
      delete_subscription db sid u =
        (db, .error ⟨403, "You do not have permission to delete this subscription"⟩)) ∧
    (∀ sid s, db.subscriptions.find? (fun x => x.id == sid) = some s →
      s.user_id = 1 →
      delete_subscription db sid u =
        ({ db with subscriptions := db.subscriptions.eraseP (fun x => x.id == sid) },
         .ok "Subscription deleted successfully")) := by
  have hid : u.id = 1 := by
    have := List.find?_some hu
    simpa using this
  refine ⟨hid, fun sid s hs hne => ?_, fun sid s hs he => ?_⟩
  · simp [delete_subscription, hs, hid, hne]
  · simp [delete_subscription, hs, hid, he]

/-- C10 witness: in the fixture store the resolution yields user 1, and
deleting subscription 2 (owned by user 2) as the resolved user is 403
while deleting subscription 1 (owned by user 1) succeeds. -/
theorem delete_subscription_hardcoded_identity_witness :
    get_current_user db0 = some u1 ∧
    u1.id = 1 ∧
    db0.subscriptions.find? (fun x => x.id == 2) = some s2 ∧
    s2.user_id ≠ 1 ∧
    delete_subscription db0 2 u1 =
      (db0, .error ⟨403, "You do not have permission to delete this subscription"⟩) :=
  ⟨by decide, by decide, by decide, by decide,
   (delete_subscription_hardcoded_identity db0 u1 (by decide)).2.1 2 s2
     (by decide) (by decide)⟩

/-- C2: update_subscription applies only the fields present and
non-null in the request: a `none` `plan_id` or `active` leaves the
stored value unchanged, a `some` value overwrites it, and the
`id` of the subscription and `user_id` are never changed; the updated record
is what gets stored. -/
theorem update_subscription_partial (db : DB) (sid : Nat)
    (req : SubscriptionUpdate) (s : Subscription)
    (h : db.subscriptions.find? (fun x => x.id == sid) = some s) :
    ∃ s₂,
      (update_subscription db sid req).2 = .ok s₂ ∧
      s₂.id = s.id ∧
      s₂.user_id = s.user_id ∧
      (req.plan_id = none → s₂.plan_id = s.plan_id) ∧
      (req.active = none → s₂.active = s.active) ∧
      (∀ p, req.plan_id = some p → s₂.plan_id = p) ∧
      (∀ a, req.active = some a → s₂.active = a) ∧
      (update_subscription db sid req).1.subscriptions =
        updateFirst (fun x => x.id == sid) (fun _ => s₂) db.subscriptions := by
  refine ⟨{ s with
      plan_id := req.plan_id.getD s.plan_id,
      active := req.active.getD s.active }, ?_, rfl, rfl, ?_, ?_, ?_, ?_, ?_⟩
  · simp [update_subscription, h]
  · intro hp; simp [hp]
  · intro ha; simp [ha]
  · intro p hp; simp [hp]
  · intro a ha; simp [ha]
  · simp [update_subscription, h]

/-- C2 witness: updating the fixture subscription `plan_id=1, active=true`
with body `{"active": false}` leaves `plan_id` at 1 and sets `active`
to false. -/
theorem update_subscription_partial_witness :
    db0.subscriptions.find? (fun x => x.id == 1) = some s1 ∧
    (∃ s₂,
      (update_subscription db0 1 ⟨none, some false⟩).2 = .ok s₂ ∧
      s₂.id = s1.id ∧
      s₂.user_id = s1.user_id ∧
      ((none : Option Nat) = none → s₂.plan_id = s1.plan_id) ∧
      ((some false : Option Bool) = none → s₂.active = s1.active) ∧
      (∀ p, (none : Option Nat) = some p → s₂.plan_id = p) ∧
      (∀ a, (some false : Option Bool) = some a → s₂.active = a) ∧
      (update_subscription db0 1 ⟨none, some false⟩).1.subscriptions =
        updateFirst (fun x => x.id == 1) (fun _ => s₂) db0.subscriptions) :=
  ⟨by decide, update_subscription_partial db0 1 ⟨none, some false⟩ s1 (by decide)⟩

/-- C9: update_subscription performs no existence check on a newly
supplied `plan_id`: for an existing subscription and any requested
`plan_id`, even one that matches no stored plan, the update succeeds
and stores that `plan_id`. -/
theorem update_subscription_unchecked_plan (db : DB) (sid pid : Nat)
    (req : SubscriptionUpdate) (s : Subscription)
    (hreq : req.plan_id = some pid)
    (hs : db.subscriptions.find? (fun x => x.id == sid) = some s)
    (hp : db.plans.find? (fun q => q.id == pid) = none) :
    ∃ s₂,
      (update_subscription db sid req).2 = .ok s₂ ∧
      s₂.plan_id = pid ∧
      (update_subscription db sid req).1.subscriptions =
        updateFirst (fun x => x.id == sid) (fun _ => s₂) db.subscriptions := by
  refine ⟨{ s with
      plan_id := req.plan_id.getD s.plan_id,
      active := req.active.getD s.active }, ?_, ?_, ?_⟩
  · simp [update_subscription, hs]
  · simp [hreq]
  · simp [update_subscription, hs]

/-- C9 witness: in the fixture store no plan with id 99 exists, yet
updating subscription 1 to `plan_id=99` succeeds and stores 99. -/
theorem update_subscription_unchecked_plan_witness :
    db0.subscriptions.find? (fun x => x.id == 1) = some s1 ∧
    db0.plans.find? (fun q => q.id == 99) = none ∧
    (∃ s₂,
      (update_subscription db0 1 ⟨some 99, none⟩).2 = .ok s₂ ∧
      s₂.plan_id = 99 ∧
      (update_subscription db0 1 ⟨some 99, none⟩).1.subscriptions =
        updateFirst (fun x => x.id == 1) (fun _ => s₂) db0.subscriptions) :=
  ⟨by decide, by decide,
   update_subscription_unchecked_plan db0 1 99 ⟨some 99, none⟩ s1 rfl
     (by decide) (by decide)⟩

/-- C3: login yields 401 both when the username does not exist and when
the stored hash does not verify, with the *identical* error value in
the two cases, so the caller cannot tell them apart; when both checks
pass, a token and the token-type marker `"bearer"` are returned. -/
theorem login_cases (db : DB) (req : UserLogin) :
    (db.users.find? (fun u => u.username == req.username) = none →
      login db req = .error ⟨401, "Incorrect username or password"⟩) ∧
    (∀ u, db.users.find? (fun u => u.username == req.username) = some u →
      verify_password req.password u.hashed_password = false →
      login db req = .error ⟨401, "Incorrect username or password"⟩) ∧
    (∀ u, db.users.find? (fun u => u.username == req.username) = some u →
      verify_password req.password u.hashed_password = true →
      login db req = .ok ⟨create_access_token u.username, "bearer"⟩) := by
  refine ⟨fun h => ?_, fun u hu hv => ?_, fun u hu hv => ?_⟩
  · simp [login, h]
  · simp [login, hu, hv]
  · simp [login, hu, hv]

/-- C3 witness: against the fixture store, a nonexistent username and a
wrong password for an existing username both produce the same 401
error. -/
theorem login_cases_witness :
    db0.users.find? (fun u => u.username == "nobody") = none ∧
    db0.users.find? (fun u => u.username == "alice") = some u1 ∧
    verify_password "wrong" u1.hashed_password = false ∧
    login db0 ⟨"nobody", "whatever"⟩ = .error ⟨401, "Incorrect username or password"⟩ ∧
    login db0 ⟨"alice", "wrong"⟩ = .error ⟨401, "Incorrect username or password"⟩ :=
  ⟨by decide, by decide, by decide,
   (login_cases db0 ⟨"nobody", "whatever"⟩).1 (by decide),
   (login_cases db0 ⟨"alice", "wrong"⟩).2.1 u1 (by decide) (by decide)⟩

/-- C4: create_subscription yields 404 and inserts nothing when the
user or the plan is missing; with both present it inserts and returns
the new record, and the schema default makes an omitted `active` field
come out as `true`. -/
theorem create_subscription_correct (db : DB) (req : SubscriptionCreate) :
    (db.users.find? (fun u => u.id == req.user_id) = none →
      create_subscription db req = (db, .error ⟨404, "User not found"⟩)) ∧
    (∀ u, db.users.find? (fun u => u.id == req.user_id) = some u →
      db.plans.find? (fun p => p.id == req.plan_id) = none →
      create_subscription db req = (db, .error ⟨404, "Plan not found"⟩)) ∧
    (∀ u p, db.users.find? (fun u => u.id == req.user_id) = some u →
      db.plans.find? (fun p => p.id == req.plan_id) = some p →
      create_subscription db req =
        ({ db with
            subscriptions := db.subscriptions ++
              [⟨db.nextSubscriptionId, req.user_id, req.plan_id, req.active⟩],
            nextSubscriptionId := db.nextSubscriptionId + 1 },
         .ok ⟨db.nextSubscriptionId, req.user_id, req.plan_id, req.active⟩)) ∧
    (∀ uid pid, ({ user_id := uid, plan_id := pid } : SubscriptionCreate).active = true) := by
  refine ⟨fun h => ?_, fun u hu hp => ?_, fun u p hu hp => ?_, fun uid pid => rfl⟩
  · simp [create_subscription, h]
  · simp [create_subscription, hu, hp]
  · simp [create_subscription, hu, hp]

/-- C4 witness: creating a subscription for a nonexistent user is 404
and leaves the fixture store unchanged; creating one for user 2 on
plan 1 with `active` omitted inserts a record with `active = true`. -/
theorem create_subscription_correct_witness :
    db0.users.find? (fun u => u.id == 77) = none ∧
    create_subscription db0 { user_id := 77, plan_id := 1 } =
      (db0, .error ⟨404, "User not found"⟩) ∧
    db0.users.find? (fun u => u.id == 2) = some u2 ∧
    db0.plans.find? (fun p => p.id == 1) = some p1 ∧
    create_subscription db0 { user_id := 2, plan_id := 1 } =
      ({ db0 with
          subscriptions := db0.subscriptions ++ [⟨3, 2, 1, true⟩],
          nextSubscriptionId := 4 },
       .ok ⟨3, 2, 1, true⟩) :=
  ⟨by decide,
   (create_subscription_correct db0 { user_id := 77, plan_id := 1 }).1 (by decide),
   by decide, by decide,
   (create_subscription_correct db0 { user_id := 2, plan_id := 1 }).2.2.1 u2 p1
     (by decide) (by decide)⟩

/-- C5: register yields Conflict and adds no user when the username is
taken; otherwise it stores a new user whose stored password is the
salted hash — never the plaintext — and responds with exactly the
username and email; registering the same username again afterwards
yields Conflict and changes nothing. -/
theorem register_correct (db : DB) (req : UserCreate) :
    (∀ u, db.users.find? (fun u => u.username == req.username) = some u →
      register db req = (db, .error ⟨400, "Username already registered"⟩)) ∧
    (db.users.find? (fun u => u.username == req.username) = none →
      register db req =
        ({ db with
            users := db.users ++
              [⟨db.nextUserId, req.username, req.email,
                get_password_hash req.password⟩],
            nextUserId := db.nextUserId + 1 },
         .ok ⟨req.username, req.email⟩) ∧
      get_password_hash req.password ≠ req.password ∧
      (∀ req₂ : UserCreate, req₂.username = req.username →
        register (register db req).1 req₂ =
          ((register db req).1, .error ⟨400, "Username already registered"⟩))) := by
  refine ⟨fun u hu => ?_, fun h => ⟨?_, ?_, fun req₂ hreq => ?_⟩⟩
  · simp [register, hu]
  · simp [register, h]
  · intro hbad
    have hl := congrArg String.length hbad
    rw [get_password_hash, String.length_append] at hl
    have h11 : ("bcrypt-sha$" : String).length = 11 := rfl
    omega
  · have h1 : (register db req).1 =
        { db with
            users := db.users ++
              [⟨db.nextUserId, req.username, req.email,
                get_password_hash req.password⟩],
            nextUserId := db.nextUserId + 1 } := by
      simp [register, h]
    rw [h1]
    have hfind :
        (db.users ++
          [(⟨db.nextUserId, req.username, req.email,
            get_password_hash req.password⟩ : User)]).find?
          (fun u => u.username == req₂.username) =
        some ⟨db.nextUserId, req.username, req.email,
          get_password_hash req.password⟩ := by
      rw [List.find?_append]
      simp [hreq, h]
    simp [register, hfind]

/-- C5 witness: registering a fresh username into the fixture store
succeeds with just username and email in the response, the stored
password differs from the plaintext, and registering the same username
again yields Conflict. -/
theorem register_correct_witness :
    db0.users.find? (fun u => u.username == "carol") = none ∧
    (register db0 ⟨"carol", "carol@example.com", "pw3"⟩ =
      ({ db0 with
          users := db0.users ++
            [⟨3, "carol", "carol@example.com", get_password_hash "pw3"⟩],
          nextUserId := 4 },
       .ok ⟨"carol", "carol@example.com"⟩) ∧
     get_password_hash "pw3" ≠ "pw3" ∧
     (∀ req₂ : UserCreate, req₂.username = "carol" →
       register (register db0 ⟨"carol", "carol@example.com", "pw3"⟩).1 req₂ =
         ((register db0 ⟨"carol", "carol@example.com", "pw3"⟩).1,
          .error ⟨400, "Username already registered"⟩))) :=
  ⟨by decide,
   (register_correct db0 ⟨"carol", "carol@example.com", "pw3"⟩).2 (by decide)⟩

/-- C6: get_user_subscriptions is 404 exactly when the set of
subscriptions with the given `user_id` is empty (a nonexistent user
included), and otherwise returns exactly that unfiltered list. -/
theorem get_user_subscriptions_correct (db : DB) (uid : Nat) :
    (db.subscriptions.filter (fun s => s.user_id == uid) = [] →
      get_user_subscriptions db uid =
        .error ⟨404, "No subscriptions found for this user"⟩) ∧
    (db.subscriptions.filter (fun s => s.user_id == uid) ≠ [] →
      get_user_subscriptions db uid =
        .ok (db.subscriptions.filter (fun s => s.user_id == uid))) := by
  refine ⟨fun h => ?_, fun h => ?_⟩
  · simp [get_user_subscriptions, h]
  · simp [get_user_subscriptions, List.isEmpty_iff, h]

/-- C6 witness: user 7 (nonexistent, hence zero subscriptions) gets
404; user 1 gets exactly the list of its subscriptions. -/
theorem get_user_subscriptions_correct_witness :
    db0.subscriptions.filter (fun s => s.user_id == 7) = [] ∧
    get_user_subscriptions db0 7 =
      .error ⟨404, "No subscriptions found for this user"⟩ ∧
    db0.subscriptions.filter (fun s => s.user_id == 1) ≠ [] ∧
    get_user_subscriptions db0 1 =
      .ok (db0.subscriptions.filter (fun s => s.user_id == 1)) :=
  ⟨by decide,
   (get_user_subscriptions_correct db0 7).1 (by decide),
   by decide,
   (get_user_subscriptions_correct db0 1).2 (by decide)⟩

/-- C7: create_plan is 404 exactly when the magazine is missing; with
the magazine present the plan is inserted and returned — for every
price and discount, negative ones included — and the schema default
makes an omitted `discount` come out as `0`. -/
theorem create_plan_correct (db : DB) (req : PlanCreate) :
    ((create_plan db req).2 = .error ⟨404, "Magazine not found"⟩ ↔
      db.magazines.find? (fun m => m.id == req.magazine_id) = none) ∧
    (∀ m, db.magazines.find? (fun m => m.id == req.magazine_id) = some m →
      create_plan db req =
        ({ db with
            plans := db.plans ++
              [⟨db.nextPlanId, req.magazine_id, req.name, req.price,
                req.discount⟩],
            nextPlanId := db.nextPlanId + 1 },
         .ok ⟨db.nextPlanId, req.magazine_id, req.name, req.price,
           req.discount⟩)) ∧
    (∀ mid n pr, ({ magazine_id := mid, name := n, price := pr } :
        PlanCreate).discount = 0) := by
  refine ⟨?_, fun m hm => ?_, fun mid n pr => rfl⟩
  · cases hm : db.magazines.find? (fun m => m.id == req.magazine_id) with
    | none => simp [create_plan, hm]
    | some m => simp [create_plan, hm]
  · simp [create_plan, hm]

/-- C7 witness: a plan with negative price and discount on the existing
fixture magazine is inserted without rejection, and a plan on a missing
magazine is 404. -/
theorem create_plan_correct_witness :
    db0.magazines.find? (fun m => m.id == 1) = some m1 ∧
    create_plan db0 ⟨1, "Bad Deal", -5, -2⟩ =
      ({ db0 with
          plans := db0.plans ++ [⟨2, 1, "Bad Deal", -5, -2⟩],
          nextPlanId := 3 },
       .ok ⟨2, 1, "Bad Deal", -5, -2⟩) ∧
    ((create_plan db0 ⟨9, "X", 1, 0⟩).2 = .error ⟨404, "Magazine not found"⟩ ↔
      db0.magazines.find? (fun m => m.id == 9) = none) :=
  ⟨by decide,
   (create_plan_correct db0 ⟨1, "Bad Deal", -5, -2⟩).2.1 m1 (by decide),
   (create_plan_correct db0 ⟨9, "X", 1, 0⟩).1⟩

/-- C8: create_magazine is Conflict (400) and inserts nothing when a
magazine with exactly the supplied title exists, and otherwise inserts
and returns the new record. -/
theorem create_magazine_correct (db : DB) (req : MagazineCreate) :
    (∀ m, db.magazines.find? (fun m => m.title == req.title) = some m →
      create_magazine db req =
        (db, .error ⟨400, "Magazine with this title already exists"⟩)) ∧
    (db.magazines.find? (fun m => m.title == req.title) = none →
      create_magazine db req =
        ({ db with
            magazines := db.magazines ++
              [⟨db.nextMagazineId, req.title, req.description⟩],
            nextMagazineId := db.nextMagazineId + 1 },
         .ok ⟨db.nextMagazineId, req.title, req.description⟩)) := by
  refine ⟨fun m hm => ?_, fun h => ?_⟩
  · simp [create_magazine, hm]
  · simp [create_magazine, h]

/-- C8 witness: creating a magazine with the exact fixture title
yields 400 and leaves the store unchanged; a fresh title is inserted. -/
theorem create_magazine_correct_witness :
    db0.magazines.find? (fun m => m.title == "Tech Monthly") = some m1 ∧
    create_magazine db0 ⟨"Tech Monthly", "dup"⟩ =
      (db0, .error ⟨400, "Magazine with this title already exists"⟩) ∧
    db0.magazines.find? (fun m => m.title == "Cooking Weekly") = none ∧
    create_magazine db0 ⟨"Cooking Weekly", "recipes"⟩ =
      ({ db0 with
          magazines := db0.magazines ++ [⟨2, "Cooking Weekly", "recipes"⟩],
          nextMagazineId := 3 },
       .ok ⟨2, "Cooking Weekly", "recipes"⟩) :=
  ⟨by decide,
   (create_magazine_correct db0 ⟨"Tech Monthly", "dup"⟩).1 m1 (by decide),
   by decide,
   (create_magazine_correct db0 ⟨"Cooking Weekly", "recipes"⟩).2 (by decide)⟩

end MagSub
